import Mathlib

/-!
Verification of the sentiment-analysis API module (sentiment_api.py) and the
setup script (modal_setup.py) of the model_deployment repository.

The Python code is shallowly embedded: dictionaries returned by the functions
become structures with Option-valued fields (a missing key is none), exceptions
become Except (an uncaught exception is Except.error, a normal return is
Except.ok), and the outside classifier pipeline is an explicit parameter: the
outcome of pipeline construction is an Except value, and a constructed pipeline
is a function from the input text to an Except of the class-score list it
produces.  Python floats are modelled as rationals; Python round (ties go to
the even neighbour) is modelled by roundHE / roundTo below.
-/

namespace ModelDeployment

/-- One entry of the list returned by the classifier pipeline:
a dict with keys label and score. -/
structure ClassScore where
  label : String
  score : Rat
deriving Repr, DecidableEq

/-- The dict returned by analyze_sentiment.  Each optional key of the Python
dict is an Option field: the success dict populates label, score, confidence
and emoji; the error dict populates error. -/
structure SentimentResult where
  text : String
  label : Option String
  score : Option Rat
  confidence : Option String
  emoji : Option String
  error : Option String
  status : String
deriving Repr, DecidableEq

/-- Python round to the nearest integer, with ties going to the even
neighbour. -/
def roundHE (q : Rat) : Int :=
  let n : Int := Int.floor q
  let frac : Rat := q - (n : Rat)
  if frac < 1/2 then n
  else if 1/2 < frac then n + 1
  else if n % 2 = 0 then n else n + 1

/-- Python round(q, k): round to k decimal places, ties to even. -/
def roundTo (k : Nat) (q : Rat) : Rat :=
  (roundHE (q * (10 : Rat) ^ k) : Rat) / (10 : Rat) ^ k

/-- Display form of a float that is an exact multiple of 1/10 (as produced by
round(x, 1)): integer part, a dot, and the tenths digit, as Python prints it
inside the f-string building the confidence field. -/
def formatFixed1 (q : Rat) : String :=
  let m : Int := Int.floor (q * 10)
  toString (m / 10) ++ "." ++ toString (m % 10)

/- The emoji literals of the source file are mojibake (the UTF-8 bytes of the
original emoji were re-decoded as Latin-1/CP1252); the strings below are the
exact character sequences stored in sentiment_api.py. -/

/-- Glyph paired with the Negative display label in label_map. -/
def negGlyph : String := "ðŸ˜ž"

/-- Glyph paired with the Neutral display label in label_map. -/
def neutGlyph : String := "ðŸ˜"

/-- Glyph paired with the Positive display label in label_map. -/
def posGlyph : String := "ðŸ˜Š"

/-- Glyph of the fallback entry used when the lookup misses. -/
def unknownGlyph : String := "ðŸ¤”"

/-- Python str.lower on one character (ASCII range, which covers every
classifier label involved). -/
def pyLowerChar (c : Char) : Char :=
  if 'A' ≤ c ∧ c ≤ 'Z' then Char.ofNat (c.toNat + 32) else c

/-- Python str.lower: lowercase every character. -/
def pyLower (s : String) : String :=
  String.mk (s.data.map pyLowerChar)

/-- The characters Python str.strip removes (ASCII whitespace). -/
def isPyWhitespace (c : Char) : Bool :=
  c == ' ' || c == '\t' || c == '\n' || c == '\r' || c == '\x0b' || c == '\x0c'

/-- Drop the leading whitespace of a character list. -/
def dropLeadingWS : List Char → List Char
  | [] => []
  | c :: cs => if isPyWhitespace c then dropLeadingWS cs else c :: cs

/-- Python str.strip: remove leading and trailing whitespace. -/
def pyStrip (s : String) : String :=
  String.mk ((dropLeadingWS (dropLeadingWS s.data).reverse).reverse)

/-- label_map.get(key, fallback-for-label): the static dict of
analyze_sentiment, queried at an arbitrary key.  A dict lookup is a chain of
key comparisons; the keys are exactly the six literals of the source. -/
def label_map_get (key : String) : Option (String × String) :=
  if key = "LABEL_0" then some ("Negative", negGlyph)
  else if key = "LABEL_1" then some ("Neutral", neutGlyph)
  else if key = "LABEL_2" then some ("Positive", posGlyph)
  else if key = "negative" then some ("Negative", negGlyph)
  else if key = "neutral" then some ("Neutral", neutGlyph)
  else if key = "positive" then some ("Positive", posGlyph)
  else none

/-- mapped = label_map.get(label.lower(), default-entry with the literal raw
label and the fallback glyph). -/
def mappedEntry (label : String) : String × String :=
  (label_map_get (pyLower label)).getD (label, unknownGlyph)

/-- Python max(results, key=score): scan the list keeping the current maximum,
replacing it only when a later score is strictly greater (so ties keep the
earlier element); on the empty list max raises, modelled by none. -/
def maxByScore : List ClassScore → Option ClassScore
  | [] => none
  | x :: xs => some (xs.foldl (fun acc y => if acc.score < y.score then y else acc) x)

/-- The error dict built in the except-branch of analyze_sentiment. -/
def errorResult (text e : String) : SentimentResult :=
  { text := text, label := none, score := none, confidence := none,
    emoji := none, error := some e, status := "error" }

/-- The success dict built in the try-branch of analyze_sentiment from the top
class score. -/
def successResult (text : String) (top : ClassScore) : SentimentResult :=
  { text := text
    label := some (mappedEntry top.label).1
    score := some (roundTo 3 top.score)
    confidence := some (formatFixed1 (roundTo 1 (top.score * 100)) ++ "%")
    emoji := some (mappedEntry top.label).2
    error := none
    status := "success" }

/-- A constructed pipeline: from the input text to either the first element of
the list the pipeline call returns (its class scores), or the message of the
exception the call raises. -/
def Pipeline : Type := String → Except String (List ClassScore)

/-- analyze_sentiment.  The pipeline construction happens before the try-block,
so a construction failure propagates to the caller (the outer Except.error);
everything after it is inside try/except, so inference failures (including
max() on an empty score list, a ValueError) become the error dict. -/
def analyze_sentiment (constructPipeline : Except String Pipeline)
    (text : String) : Except String SentimentResult :=
  match constructPipeline with
  | Except.error e => Except.error e
  | Except.ok pipe =>
    match pipe text with
    | Except.error e => Except.ok (errorResult text e)
    | Except.ok results =>
      match maxByScore results with
      | none => Except.ok (errorResult text "max() arg is an empty sequence")
      | some top => Except.ok (successResult text top)

/-- Response of the POST endpoint: either the validation-error dict built by
the endpoint itself, or the dict returned by analyze_sentiment verbatim. -/
inductive EndpointResponse where
  | validationError (error : String) (status : String)
  | analyzed (r : SentimentResult)
deriving Repr, DecidableEq

/-- sentiment_endpoint.  The request body is modelled by its text key (none
when the key is missing; data.get of a missing key yields the empty string).
The remote invocation of analyze_sentiment is an explicit parameter; the
second component counts how many times it is invoked. -/
def sentiment_endpoint (invoke : String → SentimentResult)
    (textKey : Option String) : EndpointResponse × Nat :=
  let text := textKey.getD ""
  if text = "" ∨ pyStrip text = "" then
    (EndpointResponse.validationError "Please provide text to analyze" "error", 0)
  else
    (EndpointResponse.analyzed (invoke text), 1)

/-- The dict returned by health_check. -/
structure HealthResponse where
  status : String
  service : String
  message : String
deriving Repr, DecidableEq

/-- health_check: returns a fixed literal dict; no other computation. -/
def health_check (_u : Unit) : HealthResponse :=
  { status := "healthy"
    service := "sentiment-analyzer"
    message := "Ready to analyze sentiment! Send POST requests to /sentiment_endpoint" }

/-- One entry of the list built by batch_sentiment_analysis (no confidence and
no emoji key in this path; the label is the raw pipeline label, unmapped). -/
structure BatchEntry where
  text : String
  label : Option String
  score : Option Rat
  error : Option String
  status : String
deriving Repr, DecidableEq

/-- The single top prediction returned by the default pipeline used in the
batch path (sentiment_pipeline(text)[0]); an exception anywhere in the call is
the error case. -/
def BatchPipeline : Type := String → Except String ClassScore

/-- The body of the for-loop of batch_sentiment_analysis for one text:
try building the success entry, except building the error entry. -/
def batch_item (pipe : BatchPipeline) (text : String) : BatchEntry :=
  match pipe text with
  | Except.ok r =>
    { text := text, label := some r.label, score := some (roundTo 3 r.score),
      error := none, status := "success" }
  | Except.error e =>
    { text := text, label := none, score := none,
      error := some e, status := "error" }

/-- batch_sentiment_analysis: the loop appends one entry per input text, in
input order. -/
def batch_sentiment_analysis (pipe : BatchPipeline) : List String → List BatchEntry
  | [] => []
  | t :: ts => batch_item pipe t :: batch_sentiment_analysis pipe ts

/-- A concrete batch pipeline used for evaluation: it fails on the text b and
succeeds on every other text. -/
def stubBatchPipe : BatchPipeline := fun t =>
  if t = "b" then Except.error "boom"
  else Except.ok (ClassScore.mk "positive" (1/2))

/-- app_name = os.getenv("SENTIMENT_APP_NAME", "sentiment-analyzer"); the
process environment maps a variable name to its value when set. -/
def app_name (env : String → Option String) : String :=
  (env "SENTIMENT_APP_NAME").getD "sentiment-analyzer"

/-- Python int(s) applied to an environment string (the failure of int() on a
malformed string is the none case). -/
def pyInt (s : String) : Option Int :=
  s.trim.toInt?

/-- concurrency_limit=int(os.getenv("MAX_CONCURRENT_REQUESTS", 10)) on the
deployment descriptor of analyze_sentiment: when the variable is absent the
getenv default 10 (already an int) is used. -/
def max_concurrent_requests (env : String → Option String) : Option Int :=
  match env "MAX_CONCURRENT_REQUESTS" with
  | none => some 10
  | some s => pyInt s

/- ---------- modal_setup.py ---------- -/

/-- External outcomes the setup script depends on: whether the modal import
succeeds, whether the pip-install subprocess succeeds, whether .env.local
exists, whether the modal setup subprocess succeeds, and whether the test-app
construction in the connectivity check succeeds. -/
structure SetupEnv where
  modalImportOk : Bool
  pipInstallOk : Bool
  envFileExists : Bool
  modalSetupOk : Bool
  modalConnectOk : Bool

/-- check_modal_installation: if the import succeeds, return True; otherwise
subprocess.check_call runs pip install — on success return True, on failure
check_call raises CalledProcessError, which no handler catches, so the
exception propagates (the Except.error case). -/
def check_modal_installation (env : SetupEnv) : Except String Bool :=
  if env.modalImportOk then Except.ok true
  else if env.pipInstallOk then Except.ok true
  else Except.error "CalledProcessError: pip install modal"

/-- setup_modal_auth: runs modal setup with check=True inside try/except
CalledProcessError, returning True on success and False on failure; never
raises. -/
def setup_modal_auth (env : SetupEnv) : Bool :=
  env.modalSetupOk

/-- verify_modal_connection: builds a test app inside try/except Exception,
returning True on success and False on any exception; never raises. -/
def verify_modal_connection (env : SetupEnv) : Bool :=
  env.modalConnectOk

/-- load_environment: loads .env.local when present, prints either way,
returns None; it cannot fail. -/
def load_environment (_env : SetupEnv) : Unit := ()

/-- Observable trace of one run of main: whether the install-failure message
was printed, whether steps 3 and 4 were reached, and the returned boolean. -/
structure MainTrace where
  printedInstallFail : Bool
  ranAuth : Bool
  ranVerify : Bool
  result : Bool
deriving Repr, DecidableEq

/-- main: the four steps in order, returning False at the first failing step
(so later steps are not reached); an exception from step 1 propagates. -/
def main (env : SetupEnv) : Except String MainTrace :=
  match check_modal_installation env with
  | Except.error e => Except.error e
  | Except.ok installed =>
    if !installed then
      Except.ok { printedInstallFail := true, ranAuth := false,
                  ranVerify := false, result := false }
    else
      let _ := load_environment env
      if !setup_modal_auth env then
        Except.ok { printedInstallFail := false, ranAuth := true,
                    ranVerify := false, result := false }
      else if !verify_modal_connection env then
        Except.ok { printedInstallFail := false, ranAuth := true,
                    ranVerify := true, result := false }
      else
        Except.ok { printedInstallFail := false, ranAuth := true,
                    ranVerify := true, result := true }

/-- The __main__ block: success = main(); sys.exit(1) when not success, else
fall off the end (exit status 0).  An uncaught exception also ends the process
abnormally, kept as the Except.error case. -/
def script_exit (env : SetupEnv) : Except String Int :=
  match main env with
  | Except.error e => Except.error e
  | Except.ok t => Except.ok (if t.result then 0 else 1)

/- ---------- helper lemmas ---------- -/

/-- roundHE never rounds below an integer lower bound. -/
lemma le_roundHE_of_le (m : Int) (q : Rat) (h : (m : Rat) ≤ q) : m ≤ roundHE q := by
  have hn : m ≤ Int.floor q := Int.le_floor.mpr h
  simp only [roundHE]
  split_ifs <;> omega

/-- roundHE never rounds above an integer upper bound. -/
lemma roundHE_le_of_le (q : Rat) (m : Int) (h : q ≤ (m : Rat)) : roundHE q ≤ m := by
  have hn : Int.floor q ≤ m := by
    have := Int.floor_le_floor h
    simpa using this
  have key : ¬ (1/2 : Rat) ≤ q - (Int.floor q : Rat) ∨ Int.floor q + 1 ≤ m := by
    by_cases hq : (1/2 : Rat) ≤ q - (Int.floor q : Rat)
    · right
      have hlt : (Int.floor q : Rat) < (m : Rat) := by linarith
      exact_mod_cast Int.lt_iff_add_one_le.mp (by exact_mod_cast hlt)
    · left; exact hq
  simp only [roundHE]
  split_ifs with h1 h2 h3
  · exact hn
  · rcases key with hk | hk
    · exact absurd (le_of_lt h2) hk
    · exact hk
  · exact hn
  · rcases key with hk | hk
    · exact absurd (le_of_not_lt h1) hk
    · exact hk

/-- Rounding to k decimal places keeps a probability inside [0, 1]. -/
lemma roundTo_mem_unit (k : Nat) (q : Rat) (h0 : 0 ≤ q) (h1 : q ≤ 1) :
    0 ≤ roundTo k q ∧ roundTo k q ≤ 1 := by
  have hp : (0 : Rat) < (10 : Rat) ^ k := by positivity
  have hlow : (0 : Int) ≤ roundHE (q * (10 : Rat) ^ k) := by
    refine le_roundHE_of_le 0 _ ?_
    push_cast
    positivity
  have hhigh : roundHE (q * (10 : Rat) ^ k) ≤ ((10 : Int) ^ k) := by
    refine roundHE_le_of_le _ _ ?_
    push_cast
    nlinarith
  constructor
  · exact div_nonneg (by exact_mod_cast hlow) (le_of_lt hp)
  · rw [roundTo, div_le_one hp]
    exact_mod_cast hhigh

/-- The scan performed by Python max keeps an element of the scanned list. -/
lemma foldl_pick_mem (xs : List ClassScore) (x : ClassScore) :
    xs.foldl (fun acc y => if acc.score < y.score then y else acc) x ∈ x :: xs := by
  induction xs generalizing x with
  | nil => simp
  | cons y ys ih =>
    have h := ih (if x.score < y.score then y else x)
    rcases List.mem_cons.mp h with h1 | h1
    · rw [List.foldl_cons, h1]
      split <;> simp
    · simp [List.foldl_cons, List.mem_cons, h1]

/-- The top prediction chosen by max is one of the returned class scores. -/
lemma maxByScore_mem {l : List ClassScore} {t : ClassScore}
    (h : maxByScore l = some t) : t ∈ l := by
  cases l with
  | nil => exact Option.noConfusion h
  | cons x xs =>
    simp only [maxByScore, Option.some.injEq] at h
    rw [← h]
    exact foldl_pick_mem xs x

/-- Every display label produced by the mapping is one of the three normalized
labels or the literal raw label. -/
lemma mappedEntry_label_cases (l : String) :
    (mappedEntry l).1 = "Positive" ∨ (mappedEntry l).1 = "Negative" ∨
    (mappedEntry l).1 = "Neutral" ∨ (mappedEntry l).1 = l := by
  unfold mappedEntry label_map_get
  split_ifs <;> simp

/-- The text field of a batch entry is the input text, in both branches. -/
lemma batch_item_text (pipe : BatchPipeline) (t : String) :
    (batch_item pipe t).text = t := by
  unfold batch_item
  cases pipe t <;> rfl

/-- The batch output has one entry per input. -/
lemma batch_length (pipe : BatchPipeline) (texts : List String) :
    (batch_sentiment_analysis pipe texts).length = texts.length := by
  induction texts with
  | nil => rfl
  | cons t ts ih => simp [batch_sentiment_analysis, ih]

/-- Positionally, the i-th batch entry is the loop body applied to the i-th
input text. -/
lemma batch_getElem? (pipe : BatchPipeline) :
    ∀ (texts : List String) (i : Nat) (t : String), texts[i]? = some t →
      (batch_sentiment_analysis pipe texts)[i]? = some (batch_item pipe t) := by
  intro texts
  induction texts with
  | nil => intro i t h; simp at h
  | cons x xs ih =>
    intro i t h
    cases i with
    | zero =>
      simp only [List.getElem?_cons_zero, Option.some.injEq] at h
      rw [← h]
      simp [batch_sentiment_analysis]
    | succ n =>
      simp only [List.getElem?_cons_succ] at h
      simpa [batch_sentiment_analysis] using ih n t h

/-- Status of one batch entry, read off from the outcome of the pipeline call
on that text. -/
lemma batch_item_status (pipe : BatchPipeline) (t : String) :
    ((batch_item pipe t).status = "error" ↔ ∃ e, pipe t = Except.error e) ∧
    ((batch_item pipe t).status = "success" ↔ ∃ r, pipe t = Except.ok r) := by
  cases h : pipe t with
  | ok r =>
    have hs : (batch_item pipe t).status = "success" := by
      unfold batch_item; rw [h]
    constructor
    · rw [hs]
      refine ⟨fun hh => absurd hh (by decide), fun hh => ?_⟩
      rcases hh with ⟨e, he⟩
      exact Except.noConfusion he
    · rw [hs]
      exact ⟨fun _ => ⟨r, rfl⟩, fun _ => rfl⟩
  | error e =>
    have hs : (batch_item pipe t).status = "error" := by
      unfold batch_item; rw [h]
    constructor
    · rw [hs]
      exact ⟨fun _ => ⟨e, rfl⟩, fun _ => rfl⟩
    · rw [hs]
      refine ⟨fun hh => absurd hh (by decide), fun hh => ?_⟩
      rcases hh with ⟨r, hr⟩
      exact Except.noConfusion hr

/-- check_modal_installation can only return True: both normal-return branches
yield True, and the failed-install path raises instead of returning. -/
lemma check_modal_installation_ok_true (env : SetupEnv) (b : Bool)
    (h : check_modal_installation env = Except.ok b) : b = true := by
  unfold check_modal_installation at h
  split_ifs at h
  · injection h with h2
    exact h2.symm
  · injection h with h2
    exact h2.symm

/-- Unfolding of analyze_sentiment once pipeline construction has
succeeded. -/
lemma analyze_sentiment_ok (pipe : Pipeline) (text : String) :
    analyze_sentiment (Except.ok pipe) text =
      match pipe text with
      | Except.error e => Except.ok (errorResult text e)
      | Except.ok results =>
        match maxByScore results with
        | none => Except.ok (errorResult text "max() arg is an empty sequence")
        | some top => Except.ok (successResult text top) := rfl

/-- analyze_sentiment when the inference call raises. -/
lemma analyze_sentiment_infer_error (pipe : Pipeline) (text e : String)
    (hp : pipe text = Except.error e) :
    analyze_sentiment (Except.ok pipe) text = Except.ok (errorResult text e) := by
  rw [analyze_sentiment_ok, hp]

/-- analyze_sentiment when the inference call returns a score list. -/
lemma analyze_sentiment_scores (pipe : Pipeline) (text : String)
    (results : List ClassScore) (hp : pipe text = Except.ok results) :
    analyze_sentiment (Except.ok pipe) text =
      match maxByScore results with
      | none => Except.ok (errorResult text "max() arg is an empty sequence")
      | some top => Except.ok (successResult text top) := by
  rw [analyze_sentiment_ok, hp]

/-- analyze_sentiment when inference succeeds and a top prediction exists. -/
lemma analyze_sentiment_top (pipe : Pipeline) (text : String)
    (results : List ClassScore) (top : ClassScore)
    (hp : pipe text = Except.ok results) (hm : maxByScore results = some top) :
    analyze_sentiment (Except.ok pipe) text = Except.ok (successResult text top) := by
  rw [analyze_sentiment_scores pipe text results hp, hm]

/-- analyze_sentiment when inference returns an empty score list: max raises
a ValueError inside the try-block, so the call is converted to an error
result. -/
lemma analyze_sentiment_empty (pipe : Pipeline) (text : String)
    (results : List ClassScore) (hp : pipe text = Except.ok results)
    (hm : maxByScore results = none) :
    analyze_sentiment (Except.ok pipe) text =
      Except.ok (errorResult text "max() arg is an empty sequence") := by
  rw [analyze_sentiment_scores pipe text results hp, hm]

/-- main when step 1 raises: the exception propagates out of main. -/
lemma main_check_error (env : SetupEnv) (e : String)
    (h : check_modal_installation env = Except.error e) :
    main env = Except.error e := by
  unfold main
  rw [h]

/-- main once step 1 has returned True: the remaining control flow is the
auth/verify decision chain. -/
lemma main_after_install (env : SetupEnv)
    (h : check_modal_installation env = Except.ok true) :
    main env =
      (if !setup_modal_auth env then
        Except.ok (MainTrace.mk false true false false)
      else if !verify_modal_connection env then
        Except.ok (MainTrace.mk false true true false)
      else
        Except.ok (MainTrace.mk false true true true)) := by
  unfold main
  rw [h]
  rfl

/- ---------- claim theorems ---------- -/

/-- C1: the lookup lowercases the raw label before querying the map, so the
lowercase keys positive (and hence the raw labels POSITIVE and positive) map
to the display label Positive with the positive glyph — but the raw label
LABEL_2 is lowercased to label_2, which misses the map (its LABEL_2 key is
uppercase), so the result keeps the literal raw label LABEL_2 and the fallback
glyph instead of Positive: the lookup is not case-insensitive on the LABEL_*
scheme, refuting the claim at the raw label LABEL_2. -/
theorem c1_label2_falls_through :
    (analyze_sentiment (Except.ok fun _ => Except.ok [ClassScore.mk "POSITIVE" (9/10)]) "t"
        = Except.ok (successResult "t" (ClassScore.mk "POSITIVE" (9/10)))
      ∧ (successResult "t" (ClassScore.mk "POSITIVE" (9/10))).label = some "Positive"
      ∧ (successResult "t" (ClassScore.mk "POSITIVE" (9/10))).emoji = some posGlyph)
    ∧ (analyze_sentiment (Except.ok fun _ => Except.ok [ClassScore.mk "positive" (9/10)]) "t"
        = Except.ok (successResult "t" (ClassScore.mk "positive" (9/10)))
      ∧ (successResult "t" (ClassScore.mk "positive" (9/10))).label = some "Positive"
      ∧ (successResult "t" (ClassScore.mk "positive" (9/10))).emoji = some posGlyph)
    ∧ (analyze_sentiment (Except.ok fun _ => Except.ok [ClassScore.mk "LABEL_2" (9/10)]) "t"
        = Except.ok (successResult "t" (ClassScore.mk "LABEL_2" (9/10)))
      ∧ (successResult "t" (ClassScore.mk "LABEL_2" (9/10))).label = some "LABEL_2"
      ∧ (successResult "t" (ClassScore.mk "LABEL_2" (9/10))).emoji = some unknownGlyph
      ∧ (some "LABEL_2" : Option String) ≠ some "Positive"
      ∧ unknownGlyph ≠ posGlyph) :=
  ⟨⟨rfl, by decide, by decide⟩, ⟨rfl, by decide, by decide⟩,
   rfl, by decide, by decide, by decide, by decide⟩

/-- C2 counterexample: a model-load (pipeline construction) failure happens
before the try-block of analyze_sentiment, so it propagates to the caller
instead of being converted into an error result — the claim that
analyze_sentiment never raises fails at this concrete input. -/
theorem c2_model_load_error_raises :
    analyze_sentiment (Except.error "model load failed") "hello"
      = Except.error "model load failed" := rfl

/-- C2 amended: once pipeline construction has succeeded, analyze_sentiment
never raises: it always returns a result, and an inference error is converted
into a result with status error carrying the error message in place of the
label/score fields. -/
theorem c2_no_raise_after_construction (pipe : Pipeline) (text : String) :
    (∃ r, analyze_sentiment (Except.ok pipe) text = Except.ok r) ∧
    (∀ e, pipe text = Except.error e →
      analyze_sentiment (Except.ok pipe) text = Except.ok (errorResult text e)) := by
  constructor
  · cases hp : pipe text with
    | error e => exact ⟨errorResult text e, analyze_sentiment_infer_error pipe text e hp⟩
    | ok results =>
      cases hm : maxByScore results with
      | none =>
        refine ⟨errorResult text "max() arg is an empty sequence", ?_⟩
        rw [analyze_sentiment_scores pipe text results hp, hm]
      | some top =>
        exact ⟨successResult text top, analyze_sentiment_top pipe text results top hp hm⟩
  · intro e he
    exact analyze_sentiment_infer_error pipe text e he

/-- C2 witness: the amended theorem applied to a pipeline whose inference call
fails with the message boom. -/
theorem c2_no_raise_after_construction_witness :
    analyze_sentiment (Except.ok fun _ => Except.error "boom") "hi"
      = Except.ok (errorResult "hi" "boom") :=
  (c2_no_raise_after_construction (fun _ => Except.error "boom") "hi").2 "boom" rfl

/-- C6: health_check takes no input of interest and always returns the same
static payload; repeated calls are identical and it always succeeds. -/
theorem c6_health_check_static :
    (∀ u v : Unit, health_check u = health_check v) ∧
    health_check () =
      { status := "healthy"
        service := "sentiment-analyzer"
        message := "Ready to analyze sentiment! Send POST requests to /sentiment_endpoint" } :=
  ⟨fun _ _ => rfl, rfl⟩

/-- C7: with the application-name variable absent from the environment the app
name defaults to sentiment-analyzer, and with the maximum-concurrent-requests
variable absent the concurrency limit on the deployment descriptor of the
analysis function defaults to 10. -/
theorem c7_config_defaults (env : String → Option String)
    (h1 : env "SENTIMENT_APP_NAME" = none)
    (h2 : env "MAX_CONCURRENT_REQUESTS" = none) :
    app_name env = "sentiment-analyzer" ∧ max_concurrent_requests env = some 10 := by
  constructor
  · unfold app_name
    rw [h1]
    rfl
  · unfold max_concurrent_requests
    rw [h2]

/-- C7 witness: the empty environment. -/
theorem c7_config_defaults_witness :
    app_name (fun _ => none) = "sentiment-analyzer" ∧
    max_concurrent_requests (fun _ => none) = some 10 :=
  c7_config_defaults (fun _ => none) rfl rfl

/-- C3: for every non-blank text on which the pipeline succeeds with class
scores all in [0,1] and top prediction top, analyze_sentiment returns a
result with status success, a label that is one of the three normalized
display labels or the literal raw label, a score in [0,1] equal to the top
score rounded to 3 decimal places, and a confidence string that is the
unrounded top score times 100 rounded to 1 decimal place followed by a
percent sign. -/
theorem c3_success_result_shape (pipe : Pipeline) (text : String)
    (scores : List ClassScore) (top : ClassScore)
    (hblank : pyStrip text ≠ "")
    (hp : pipe text = Except.ok scores)
    (hbound : ∀ s ∈ scores, 0 ≤ s.score ∧ s.score ≤ 1)
    (hm : maxByScore scores = some top) :
    analyze_sentiment (Except.ok pipe) text = Except.ok (successResult text top) ∧
    (successResult text top).status = "success" ∧
    ((successResult text top).label = some "Positive" ∨
     (successResult text top).label = some "Negative" ∨
     (successResult text top).label = some "Neutral" ∨
     (successResult text top).label = some top.label) ∧
    (successResult text top).score = some (roundTo 3 top.score) ∧
    (0 ≤ roundTo 3 top.score ∧ roundTo 3 top.score ≤ 1) ∧
    (successResult text top).confidence =
      some (formatFixed1 (roundTo 1 (top.score * 100)) ++ "%") := by
  obtain ⟨h0, h1⟩ := hbound top (maxByScore_mem hm)
  obtain ⟨hr0, hr1⟩ := roundTo_mem_unit 3 top.score h0 h1
  refine ⟨analyze_sentiment_top pipe text scores top hp hm, rfl, ?_, rfl,
    ⟨hr0, hr1⟩, rfl⟩
  have hl : (successResult text top).label = some (mappedEntry top.label).1 := rfl
  rcases mappedEntry_label_cases top.label with h | h | h | h
  · exact Or.inl (by rw [hl, h])
  · exact Or.inr (Or.inl (by rw [hl, h]))
  · exact Or.inr (Or.inr (Or.inl (by rw [hl, h])))
  · exact Or.inr (Or.inr (Or.inr (by rw [hl, h])))

/-- C3 witness: a pipeline returning one class score 7/10 for the raw label
positive on the non-blank text good. -/
theorem c3_success_result_shape_witness :
    analyze_sentiment (Except.ok fun _ => Except.ok [ClassScore.mk "positive" (7/10)]) "good"
      = Except.ok (successResult "good" (ClassScore.mk "positive" (7/10))) ∧
    (successResult "good" (ClassScore.mk "positive" (7/10))).status = "success" ∧
    ((successResult "good" (ClassScore.mk "positive" (7/10))).label = some "Positive" ∨
     (successResult "good" (ClassScore.mk "positive" (7/10))).label = some "Negative" ∨
     (successResult "good" (ClassScore.mk "positive" (7/10))).label = some "Neutral" ∨
     (successResult "good" (ClassScore.mk "positive" (7/10))).label =
       some (ClassScore.mk "positive" (7/10)).label) ∧
    (successResult "good" (ClassScore.mk "positive" (7/10))).score =
      some (roundTo 3 (ClassScore.mk "positive" (7/10)).score) ∧
    (0 ≤ roundTo 3 (ClassScore.mk "positive" (7/10)).score ∧
      roundTo 3 (ClassScore.mk "positive" (7/10)).score ≤ 1) ∧
    (successResult "good" (ClassScore.mk "positive" (7/10))).confidence =
      some (formatFixed1 (roundTo 1 ((ClassScore.mk "positive" (7/10)).score * 100)) ++ "%") :=
  c3_success_result_shape (fun _ => Except.ok [ClassScore.mk "positive" (7/10)]) "good"
    [ClassScore.mk "positive" (7/10)] (ClassScore.mk "positive" (7/10))
    (by decide) rfl
    (by
      intro s hs
      rw [List.mem_singleton] at hs
      subst hs
      show (0 : Rat) ≤ 7/10 ∧ (7 : Rat)/10 ≤ 1
      norm_num)
    rfl

/-- C4: for every request body whose text key is missing, empty, or
whitespace-only after stripping, the endpoint returns the error object with a
non-empty message and status error, and the analysis function is invoked zero
times. -/
theorem c4_blank_request_short_circuits (invoke : String → SentimentResult)
    (textKey : Option String)
    (h : textKey = none ∨ ∃ t, textKey = some t ∧ pyStrip t = "") :
    sentiment_endpoint invoke textKey =
      (EndpointResponse.validationError "Please provide text to analyze" "error", 0) ∧
    "Please provide text to analyze" ≠ "" := by
  refine ⟨?_, by decide⟩
  rcases h with rfl | ⟨t, rfl, ht⟩
  · rfl
  · show (if t = "" ∨ pyStrip t = "" then
        (EndpointResponse.validationError "Please provide text to analyze" "error", 0)
      else (EndpointResponse.analyzed (invoke t), 1)) =
      (EndpointResponse.validationError "Please provide text to analyze" "error", 0)
    rw [if_pos (Or.inr ht)]

/-- C4 witness: a whitespace-only text key. -/
theorem c4_blank_request_short_circuits_witness :
    sentiment_endpoint (fun t => errorResult t "x") (some "  ") =
      (EndpointResponse.validationError "Please provide text to analyze" "error", 0) ∧
    "Please provide text to analyze" ≠ "" :=
  c4_blank_request_short_circuits (fun t => errorResult t "x") (some "  ")
    (Or.inr ⟨"  ", rfl, by decide⟩)

/-- C5: the batch result has one entry per input text; the i-th entry is the
loop body applied to the i-th input, so order is preserved and entries are
independent; an entry has status error exactly when the pipeline call on that
text raises, and status success exactly when it succeeds, so one failing item
leaves all other entries processed. -/
theorem c5_batch_order_and_isolation (pipe : BatchPipeline) (texts : List String) :
    (batch_sentiment_analysis pipe texts).length = texts.length ∧
    ∀ (i : Nat) (t : String), texts[i]? = some t →
      (batch_sentiment_analysis pipe texts)[i]? = some (batch_item pipe t) ∧
      ((batch_item pipe t).status = "error" ↔ ∃ e, pipe t = Except.error e) ∧
      ((batch_item pipe t).status = "success" ↔ ∃ r, pipe t = Except.ok r) :=
  ⟨batch_length pipe texts,
   fun i t h => ⟨batch_getElem? pipe texts i t h, batch_item_status pipe t⟩⟩

/-- C5 witness: a two-element batch whose second text makes the pipeline
raise. -/
theorem c5_batch_order_and_isolation_witness :
    (batch_sentiment_analysis stubBatchPipe ["a", "b"])[1]? =
      some (batch_item stubBatchPipe "b") ∧
    ((batch_item stubBatchPipe "b").status = "error" ↔
      ∃ e, stubBatchPipe "b" = Except.error e) ∧
    ((batch_item stubBatchPipe "b").status = "success" ↔
      ∃ r, stubBatchPipe "b" = Except.ok r) :=
  (c5_batch_order_and_isolation stubBatchPipe ["a", "b"]).2 1 "b" rfl

/-- C8: once step 1 has succeeded, an authentication failure in step 3 stops
the workflow before step 4 (the trace shows verification not reached), main
returns failure, and the script exits with status 1; a connectivity failure in
step 4 likewise produces failure and exit status 1. -/
theorem c8_setup_short_circuits (env : SetupEnv)
    (hinstall : check_modal_installation env = Except.ok true) :
    (setup_modal_auth env = false →
      main env = Except.ok (MainTrace.mk false true false false) ∧
      script_exit env = Except.ok 1) ∧
    (setup_modal_auth env = true → verify_modal_connection env = false →
      main env = Except.ok (MainTrace.mk false true true false) ∧
      script_exit env = Except.ok 1) := by
  constructor
  · intro hauth
    have hm : main env = Except.ok (MainTrace.mk false true false false) := by
      rw [main_after_install env hinstall, hauth]
      rfl
    refine ⟨hm, ?_⟩
    unfold script_exit
    rw [hm]
    rfl
  · intro hauth hconn
    have hm : main env = Except.ok (MainTrace.mk false true true false) := by
      rw [main_after_install env hinstall, hauth, hconn]
      rfl
    refine ⟨hm, ?_⟩
    unfold script_exit
    rw [hm]
    rfl

/-- C8 witness: an environment failing authentication, and one failing
connectivity verification. -/
theorem c8_setup_short_circuits_witness :
    (main (SetupEnv.mk true true true false true) =
        Except.ok (MainTrace.mk false true false false) ∧
      script_exit (SetupEnv.mk true true true false true) = Except.ok 1) ∧
    (main (SetupEnv.mk true true true true false) =
        Except.ok (MainTrace.mk false true true false) ∧
      script_exit (SetupEnv.mk true true true true false) = Except.ok 1) :=
  ⟨(c8_setup_short_circuits (SetupEnv.mk true true true false true) rfl).1 rfl,
   (c8_setup_short_circuits (SetupEnv.mk true true true true false) rfl).2 rfl rfl⟩

/-- C9: every result of analyze_sentiment and every entry of a batch result
carries the corresponding input text unchanged, in both the success and the
error outcome. -/
theorem c9_text_field_preserved :
    (∀ (constructPipeline : Except String Pipeline) (text : String)
        (r : SentimentResult),
        analyze_sentiment constructPipeline text = Except.ok r → r.text = text) ∧
    (∀ (pipe : BatchPipeline) (texts : List String),
        (batch_sentiment_analysis pipe texts).map BatchEntry.text = texts) := by
  constructor
  · intro cp text r h
    cases cp with
    | error e => exact Except.noConfusion h
    | ok pipe =>
      cases hp : pipe text with
      | error e =>
        rw [analyze_sentiment_infer_error pipe text e hp] at h
        injection h with h2
        rw [← h2]
        rfl
      | ok results =>
        cases hm : maxByScore results with
        | none =>
          rw [analyze_sentiment_empty pipe text results hp hm] at h
          injection h with h2
          rw [← h2]
          rfl
        | some top =>
          rw [analyze_sentiment_top pipe text results top hp hm] at h
          injection h with h2
          rw [← h2]
          rfl
  · intro pipe texts
    induction texts with
    | nil => rfl
    | cons t ts ih =>
      show (batch_item pipe t :: batch_sentiment_analysis pipe ts).map BatchEntry.text
        = t :: ts
      rw [List.map_cons, batch_item_text, ih]

/-- C9 witness: an inference failure on the text t. -/
theorem c9_text_field_preserved_witness :
    (errorResult "t" "boom").text = "t" :=
  c9_text_field_preserved.1 (Except.ok fun _ => Except.error "boom") "t"
    (errorResult "t" "boom") rfl

/-- C10: check_modal_installation never returns False — it returns True or
raises — so the branch of main printing the install-failure message is
unreachable: every trace main returns has printedInstallFail false. -/
theorem c10_install_failure_branch_unreachable (env : SetupEnv) :
    check_modal_installation env ≠ Except.ok false ∧
    ∀ t, main env = Except.ok t → t.printedInstallFail = false := by
  constructor
  · intro h
    exact absurd (check_modal_installation_ok_true env false h) (by decide)
  · intro t ht
    cases hc : check_modal_installation env with
    | error e =>
      rw [main_check_error env e hc] at ht
      exact Except.noConfusion ht
    | ok b =>
      have hb := check_modal_installation_ok_true env b hc
      subst hb
      rw [main_after_install env hc] at ht
      cases ha : setup_modal_auth env <;> cases hv : verify_modal_connection env <;>
        rw [ha, hv] at ht <;> (injection ht with h2; rw [← h2])

/-- C10 witness: a fully healthy environment; its trace never prints the
install-failure message, and its step 1 did not return False. -/
theorem c10_install_failure_branch_unreachable_witness :
    check_modal_installation (SetupEnv.mk true true true true true) ≠ Except.ok false ∧
    (MainTrace.mk false true true true).printedInstallFail = false :=
  ⟨(c10_install_failure_branch_unreachable (SetupEnv.mk true true true true true)).1,
   (c10_install_failure_branch_unreachable (SetupEnv.mk true true true true true)).2
     (MainTrace.mk false true true true) rfl⟩

end ModelDeployment
